import Mathlib

/-!
Verification of the catalog cache / filter / identifier-shortening core of
`main.py` (Prosto Flowers Telegram shop bot).  Python functions are shallowly
embedded as Lean definitions over `List`, `String`, `Int`, `Nat` and `ℚ`;
machine 32-bit arithmetic inside SHA-1 is `Nat` arithmetic reduced modulo
`2 ^ 32`.
-/

set_option maxRecDepth 4000

/-! ## SHA-1 (as used by `hashlib.sha1(data.encode()).hexdigest()` in main.py) -/

/-- Reduce a natural number to a 32-bit word value. -/
def w32 (n : Nat) : Nat := n % 4294967296

/-- Left-rotation of a 32-bit word by `b` bits. -/
def rotl (b n : Nat) : Nat := w32 ((n <<< b) ||| (n >>> (32 - b)))

/-- SHA-1 message padding: append `0x80`, zeros, and the 64-bit big-endian
bit length, reaching a multiple of 64 bytes. -/
def sha1Pad (msg : List Nat) : List Nat :=
  let l := msg.length
  let bl := 8 * l
  msg ++ (128 :: List.replicate ((64 - ((l + 9) % 64)) % 64) 0)
      ++ [bl >>> 56 % 256, bl >>> 48 % 256, bl >>> 40 % 256, bl >>> 32 % 256,
          bl >>> 24 % 256, bl >>> 16 % 256, bl >>> 8 % 256, bl % 256]

/-- Group a byte list into big-endian 32-bit words. -/
def toWords : List Nat → List Nat
  | b0 :: b1 :: b2 :: b3 :: rest =>
      (((b0 * 256 + b1) * 256 + b2) * 256 + b3) :: toWords rest
  | _ => []

/-- Next word of the SHA-1 message schedule, given the already-produced words
in reverse order (most recent first). -/
def nextW (ws : List Nat) : Nat :=
  rotl 1 ((((ws.getD 2 0) ^^^ (ws.getD 7 0)) ^^^ (ws.getD 13 0)) ^^^ (ws.getD 15 0))

/-- Extend the (reversed) message schedule by `n` further words. -/
def extendW : Nat → List Nat → List Nat
  | 0, ws => ws
  | n + 1, ws => extendW n (nextW ws :: ws)

/-- SHA-1 round function and round constant for round index `i`. -/
def fK (i b c d : Nat) : Nat × Nat :=
  if i < 20 then ((b &&& c) ||| ((b ^^^ 4294967295) &&& d), 0x5A827999)
  else if i < 40 then ((b ^^^ c) ^^^ d, 0x6ED9EBA1)
  else if i < 60 then (((b &&& c) ||| (b &&& d)) ||| (c &&& d), 0x8F1BBCDC)
  else ((b ^^^ c) ^^^ d, 0xCA62C1D6)

/-- Run the 80 SHA-1 rounds over the schedule words `ws`, starting at round
index `i` with state `(a, b, c, d, e)`. -/
def sha1Rounds : Nat → List Nat → Nat × Nat × Nat × Nat × Nat → Nat × Nat × Nat × Nat × Nat
  | _, [], st => st
  | i, w :: ws, (a, b, c, d, e) =>
      let fk := fK i b c d
      let temp := w32 (rotl 5 a + fk.1 + e + fk.2 + w)
      sha1Rounds (i + 1) ws (temp, a, rotl 30 b, c, d)

/-- Process one 64-byte block, updating the five-word SHA-1 state. -/
def processBlock (h : Nat × Nat × Nat × Nat × Nat) (block : List Nat) :
    Nat × Nat × Nat × Nat × Nat :=
  let ws := (extendW 64 (toWords block).reverse).reverse
  match sha1Rounds 0 ws h with
  | (a, b, c, d, e) =>
      (w32 (h.1 + a), w32 (h.2.1 + b), w32 (h.2.2.1 + c),
       w32 (h.2.2.2.1 + d), w32 (h.2.2.2.2 + e))

/-- Split a byte list into 64-byte blocks (`fuel` bounds the recursion; it is
called with the list length, which always suffices). -/
def toBlocks : Nat → List Nat → List (List Nat)
  | 0, _ => []
  | _, [] => []
  | n + 1, l => l.take 64 :: toBlocks n (l.drop 64)

/-- SHA-1 of a byte list: the five 32-bit words of the digest. -/
def sha1 (msg : List Nat) : Nat × Nat × Nat × Nat × Nat :=
  let padded := sha1Pad msg
  (toBlocks padded.length padded).foldl processBlock
    (0x67452301, 0xEFCDAB89, 0x98BADCFE, 0x10325476, 0xC3D2E1F0)

/-- Big-endian bytes of a 32-bit word. -/
def wordBytes (w : Nat) : List Nat :=
  [w / 16777216 % 256, w / 65536 % 256, w / 256 % 256, w % 256]

/-- The 20 digest bytes of a SHA-1 state. -/
def digestBytes (d : Nat × Nat × Nat × Nat × Nat) : List Nat :=
  wordBytes d.1 ++ wordBytes d.2.1 ++ wordBytes d.2.2.1 ++
  wordBytes d.2.2.2.1 ++ wordBytes d.2.2.2.2

/-- The sixteen lowercase hexadecimal digit characters: the ten digits
(code points 48-57) followed by the letters a-f (code points 97-102). -/
def hexChars16 : List Char :=
  (List.range 10).map (fun n => Char.ofNat (48 + n)) ++
  (List.range 6).map (fun n => Char.ofNat (97 + n))

/-- Lowercase hexadecimal digit for `n % 16`. -/
def hexDigit (n : Nat) : Char := hexChars16.getD (n % 16) 'f'

/-- Two hexadecimal characters of a byte value. -/
def byteHexChars (b : Nat) : List Char := [hexDigit (b / 16), hexDigit b]

/-- UTF-8 bytes of a character (the encoding Python's `str.encode()` uses). -/
def charUtf8 (c : Char) : List Nat :=
  let n := c.toNat
  if n < 128 then [n]
  else if n < 2048 then [192 + n / 64, 128 + n % 64]
  else if n < 65536 then [224 + n / 4096, 128 + n / 64 % 64, 128 + n % 64]
  else [240 + n / 262144, 128 + n / 4096 % 64, 128 + n / 64 % 64, 128 + n % 64]

/-- UTF-8 bytes of a character list. -/
def bytesOfChars (l : List Char) : List Nat := l.flatMap charUtf8

/-- Model of Python `s.encode()`: UTF-8 bytes of a string. -/
def pyEncode (s : String) : List Nat := bytesOfChars s.data

/-- Byte length of a string under UTF-8 (Python `len(s.encode())`). -/
def utf8Len (s : String) : Nat := (pyEncode s).length

/-- Model of Python string slicing `s[:n]` (counts characters). -/
def str_take (s : String) (n : Nat) : String := String.mk (s.data.take n)

/-- Model of `hashlib.sha1(s.encode()).hexdigest()`: the 40-character
lowercase hex digest of a string. -/
def sha1_hexdigest (s : String) : String :=
  String.mk ((digestBytes (sha1 (pyEncode s))).flatMap byteHexChars)

/-- Model of `hashlib.sha1(s.encode()).hexdigest()[:8]` from main.py. -/
def first8_sha1_hex (s : String) : String := str_take (sha1_hexdigest s) 8

/-! ## Data model -/

/-- Outcome of Python `float(x)`: a finite rational, an infinity, or `nan`.
Catalog prices at the precision occurring here are exactly representable, so
finite values are modelled as rationals. -/
inductive PyFloat where
  | fin (q : ℚ)
  | inf
  | ninf
  | nan
deriving DecidableEq, Repr

/-- Python `<=` on float values; `nan` compares false against everything. -/
def PyFloat.le : PyFloat → PyFloat → Bool
  | .nan, _ => false
  | _, .nan => false
  | .ninf, _ => true
  | _, .ninf => false
  | _, .inf => true
  | .inf, _ => false
  | .fin a, .fin b => decide (a ≤ b)

/-- A product's raw `tags` field: either a single comma-delimited string or a
list of tag strings (main.py handles both shapes). -/
inductive Tags where
  | str (s : String)
  | list (l : List String)
deriving DecidableEq, Repr

/-- A catalog product as the subsystem sees it.  `handle` is the stable
identifier.  `price` is the outcome of Python `float()` on the price field:
`none` when that call raises (unusable price); a missing price field reads as
`float(0)`, i.e. `some (.fin 0)`. -/
structure Product where
  handle : String
  title : String
  price : Option PyFloat
  tags : Tags
deriving DecidableEq, Repr

/-! ## Tag normalization and tag filtering (main.py 134-136, 59-82, 420-446) -/

/-- The apostrophe character. -/
def apoChar : Char := Char.ofNat 39

/-- A one-character string holding an apostrophe. -/
def apoStr : String := String.mk [apoChar]

/-- Strip leading and trailing whitespace from a character list (model of
Python `str.strip()`). -/
def trimChars (l : List Char) : List Char :=
  ((l.dropWhile Char.isWhitespace).reverse.dropWhile Char.isWhitespace).reverse

/-- Split a character list on a separator character (model of Python
`str.split(sep)`: `""` yields `[""]`, empty pieces are kept). -/
def splitOnChar (sep : Char) : List Char → List (List Char)
  | [] => [[]]
  | c :: rest =>
      let r := splitOnChar sep rest
      if c = sep then [] :: r
      else
        match r with
        | h :: t => (c :: h) :: t
        | [] => [[c]]

/-- Embeds `normalize_tag` (main.py 134-136): lowercase, strip surrounding
whitespace, then delete every space, hyphen and apostrophe character (the
three successive single-character `replace` calls amount to a filter). -/
def normalize_tag (tag : String) : String :=
  String.mk ((trimChars (tag.data.map Char.toLower)).filter
    (fun c => !(c = ' ' || c = '-' || c = apoChar)))

/-- Embeds the `TAG_MAPPINGS` dict (main.py 59-82). -/
def TAG_MAPPINGS : List (String × List String) := [
  ("under50", ["under50", "under 50", "cheap", "budget"]),
  ("50-150", ["50-150", "50 to 150", "midrange", "affordable"]),
  ("151-250", ["151-250", "151 to 250", "premium"]),
  ("over250", ["over250", "over 250", "luxury"]),
  ("anniversary", ["anniversary", "anniversaries"]),
  ("valentine", ["valentine", "valentines", "valentine" ++ apoStr ++ "s day"]),
  ("romantic", ["romantic", "romance", "love"]),
  ("getwell", ["getwell", "get well", "recovery", "feel better"]),
  ("wedding", ["wedding", "bridal", "bridesmaid"]),
  ("birthday", ["birthday", "bday", "birthdays"]),
  ("fathersday", ["fathersday", "father" ++ apoStr ++ "s day", "dad"]),
  ("roses", ["roses", "rose"]),
  ("lilies", ["lilies", "lily"]),
  ("tulips", ["tulips", "tulip"]),
  ("orchids", ["orchids", "orchid"]),
  ("sunflowers", ["sunflowers", "sunflower"]),
  ("mixed", ["mixed", "assorted", "variety"])]

/-- The product's tag list as main.py computes it: a string field is split on
commas with each piece stripped; a list field is used as is. -/
def productTagList (t : Tags) : List String :=
  match t with
  | .str s => (splitOnChar (',') s.data).map (fun cs => String.mk (trimChars cs))
  | .list l => l

/-- The per-product predicate inside `filter_products_by_tag`:
some normalized surface form occurs among the product's normalized tags. -/
def tag_filter_pred (normalized_possible : List String) (p : Product) : Bool :=
  normalized_possible.any
    (fun tag => ((productTagList p.tags).map normalize_tag).contains tag)

/-- Embeds `filter_products_by_tag` (main.py 420-446): absent keys fall back
to the literal key; products are kept when any normalized tag matches. -/
def filter_products_by_tag (products : List Product) (filter_value : String) :
    List Product :=
  if products = [] then []
  else
    products.filter (tag_filter_pred
      (((TAG_MAPPINGS.lookup filter_value).getD [filter_value]).map normalize_tag))

/-! ## Price filtering (main.py 499-522) -/

/-- Embeds the `price_mapping` dict together with its `.get` default
`(0, float('inf'))` (main.py 504-511). -/
def price_mapping (price_range : String) : PyFloat × PyFloat :=
  if price_range = "under50" then (.fin 0, .fin 50)
  else if price_range = "50-150" then (.fin 50, .fin 150)
  else if price_range = "151-250" then (.fin 151, .fin 250)
  else if price_range = "over250" then (.fin 251, .inf)
  else (.fin 0, .inf)

/-- The per-product predicate inside `filter_products_by_price`: the parsed
price lies between the bucket bounds; a failed parse is skipped. -/
def price_filter_pred (price_range : String) (p : Product) : Bool :=
  match p.price with
  | none => false
  | some v =>
      PyFloat.le (price_mapping price_range).1 v &&
      PyFloat.le v (price_mapping price_range).2

/-- Embeds `filter_products_by_price` (main.py 499-522); the guard mirrors
`if not products or not price_range`. -/
def filter_products_by_price (products : List Product) (price_range : String) :
    List Product :=
  if products = [] ∨ price_range = "" then []
  else products.filter (price_filter_pred price_range)

/-! ## Catalog fetch and per-session cache (main.py 448-497, 611-620) -/

/-- A raw product node of the catalog source's response; each variant carries
its price (as the later `float()` parse outcome). -/
structure RawNode where
  handle : String
  title : String
  tags : Tags
  variants : List (Option PyFloat)
deriving DecidableEq, Repr

/-- Embeds `get_all_products` (main.py 448-497): a failed request or
malformed response (`none`) yields `[]` (every error path returns `[]`);
otherwise products with at least one variant are kept, with the first
variant's price copied onto the product. -/
def get_all_products (resp : Option (List RawNode)) : List Product :=
  match resp with
  | none => []
  | some nodes =>
      nodes.filterMap (fun n =>
        match n.variants with
        | [] => none
        | v :: _ => some ⟨n.handle, n.title, v, n.tags⟩)

/-- Observable outcome of one `cache_products` call: the returned product
list, the cache state left behind (`cached_products`, `cache_time`), and
whether this call invoked `get_all_products` (a refetch). -/
structure CacheResult where
  products : List Product
  state : List Product × Int
  fetched : Bool
deriving DecidableEq, Repr

/-- Embeds `cache_products` (main.py 611-620).  `st` is the session's cache
attribute (`none` when the attribute is not yet set), `now` the current time
in seconds, and `fetchResult` what `get_all_products` would return if called
now.  The source refetches when the attribute is missing, when the cached
list is empty (falsy), or when `time.time() - context.cache_time > 600`. -/
def cache_products (fetchResult : List Product) (now : Int)
    (st : Option (List Product × Int)) : CacheResult :=
  match st with
  | none => ⟨fetchResult, (fetchResult, now), true⟩
  | some (ps, t0) =>
      if ps = [] then ⟨fetchResult, (fetchResult, now), true⟩
      else if now - t0 > 600 then ⟨fetchResult, (fetchResult, now), true⟩
      else ⟨ps, (ps, t0), false⟩

/-! ## Identifier shortening and token resolution (main.py 409-417, 1095-1111) -/

/-- Embeds `safe_callback_data` (main.py 409-417): keep the identifier
verbatim when it fits in `64 - len(pfx) - 1` characters, else substitute the
first 8 hex characters of its SHA-1 digest. -/
def safe_callback_data (pfx : String) (data : String) : String :=
  if (data.length : Int) ≤ 64 - (pfx.length : Int) - 1 then pfx ++ "_" ++ data
  else pfx ++ "_" ++ first8_sha1_hex data

/-- Embeds the token-resolution logic of `product_detail` (main.py
1095-1111): a payload of length exactly 8 is resolved by scanning the cached
candidates for the first one whose handle's 8-hex-character SHA-1 digest
equals the payload; any other payload is resolved by exact handle lookup;
`none` models the "Product not found" reply. -/
def product_detail_lookup (payload : String) (candidates : List Product) :
    Option Product :=
  if payload.length = 8 then
    candidates.find? (fun p => first8_sha1_hex p.handle == payload)
  else
    candidates.find? (fun p => p.handle == payload)

/-! ## Claim-side (spec-side) definitions -/

/-- A character is a lowercase hexadecimal digit. -/
def isHexChar (c : Char) : Bool := hexChars16.contains c

/-- Spec-side reading of "looks like a hex digest": every character is a
hexadecimal digit. -/
def isHexPayload (s : String) : Bool := s.data.all isHexChar

/-- A string is pure ASCII (each character below code point 128), so its
UTF-8 byte length equals its character count. -/
def isAsciiStr (s : String) : Bool := s.data.all (fun c => decide (c.toNat < 128))

/-- Spec-side bucket bounds: lower bound and optional finite upper bound
(`none` for the unbounded `over250` interval). -/
def bucketBounds (price_range : String) : ℚ × Option ℚ :=
  if price_range = "under50" then (0, some 50)
  else if price_range = "50-150" then (50, some 150)
  else if price_range = "151-250" then (151, some 250)
  else (251, none)

/-- Claim C3 as stated: the price parses to a finite non-negative number
lying within the bucket's inclusive interval. -/
def claim_price_pred (price_range : String) (p : Product) : Bool :=
  match p.price with
  | some (.fin q) =>
      decide (0 ≤ q) && decide ((bucketBounds price_range).1 ≤ q) &&
      (match (bucketBounds price_range).2 with
       | some hi => decide (q ≤ hi)
       | none => true)
  | _ => false

/-- Claim C3 amended: additionally, a price parsing to `+inf` falls inside
the `over250` interval (the only bucket with an infinite upper bound). -/
def claim_price_pred_amended (price_range : String) (p : Product) : Bool :=
  match p.price with
  | some (.fin q) =>
      decide (0 ≤ q) && decide ((bucketBounds price_range).1 ≤ q) &&
      (match (bucketBounds price_range).2 with
       | some hi => decide (q ≤ hi)
       | none => true)
  | some .inf => (bucketBounds price_range).2.isNone
  | _ => false

/-! ## Sample data for concrete instances -/

/-- Sample product tagged with the raw comma-delimited string
`Valentine's Day, roses`. -/
def pVal : Product :=
  ⟨"valentine-special", "Valentine Special", some (.fin 80),
   .str ("Valentine" ++ apoStr ++ "s Day, roses")⟩

/-- Sample product tagged only `birthday`. -/
def pBday : Product := ⟨"bday-basic", "Birthday Basic", some (.fin 60), .list ["birthday"]⟩

/-- Sample product carrying a tag absent from `TAG_MAPPINGS`. -/
def pPeony : Product := ⟨"peony-dream", "Peony Dream", some (.fin 90), .list ["peonies"]⟩

/-- Sample cached product. -/
def pRose : Product := ⟨"rose", "Rose Bouquet", some (.fin 30), .list ["roses"]⟩

/-- A second sample product, used as a distinct refetch result. -/
def pRose2 : Product := ⟨"rose2", "Second Rose", some (.fin 40), .list ["roses"]⟩

/-- Sample product priced 49.99. -/
def pCheap : Product := ⟨"cheap-one", "Cheap One", some (.fin (mkRat 4999 100)), .list []⟩

/-- Sample product priced exactly 50. -/
def pFifty : Product := ⟨"fifty", "Fifty", some (.fin 50), .list []⟩

/-- Sample product priced 50.01. -/
def pAbove : Product := ⟨"fifty-oh-one", "Fifty Oh One", some (.fin (mkRat 5001 100)), .list []⟩

/-- Sample product whose price field parses to `+inf` (Python accepts the
string `inf` in `float()`). -/
def pInf : Product := ⟨"infinite", "Infinite Price", some .inf, .list []⟩

/-- Sample product with the short identifier `short-handle`. -/
def pShort : Product := ⟨"short-handle", "Short Handle", some (.fin 100), .list []⟩

/-- A 200-character identifier. -/
def x200 : String := String.mk (List.replicate 200 'a')

/-- Sample product with the 200-character identifier `x200`. -/
def pLong : Product := ⟨x200, "Long Handle", some (.fin 120), .list []⟩

/-- Sample product whose 8-character identifier is not hexadecimal. -/
def pFlow : Product := ⟨"flowerzz", "Flower Zz", some (.fin 70), .list []⟩

/-- A second sample product with an 8-character non-hexadecimal identifier. -/
def pOrch : Product := ⟨"orchidzz", "Orchid Zz", some (.fin 75), .list []⟩

/-- Prefix of 60 `a` characters, exhibiting the 64-byte overflow of the
shortener for long prefixes. -/
def pfx60 : String := String.mk (List.replicate 60 'a')

/-! ## Helper lemmas about the hex digest and UTF-8 lengths -/

theorem hexDigit_mem (n : Nat) : hexDigit n ∈ hexChars16 := by
  unfold hexDigit
  have h : n % 16 < 16 := Nat.mod_lt n (by norm_num)
  generalize hg : n % 16 = m at h ⊢
  interval_cases m <;> decide

theorem length_digestBytes (d : Nat × Nat × Nat × Nat × Nat) :
    (digestBytes d).length = 20 := rfl

theorem length_flatMap_byteHexChars (l : List Nat) :
    (l.flatMap byteHexChars).length = 2 * l.length := by
  induction l with
  | nil => rfl
  | cons b bs ih =>
      simp only [List.flatMap_cons, byteHexChars, List.length_append, ih,
        List.length_cons, List.length_nil]
      omega

theorem mem_flatMap_byteHexChars {l : List Nat} {c : Char}
    (h : c ∈ l.flatMap byteHexChars) : c ∈ hexChars16 := by
  rcases List.mem_flatMap.mp h with ⟨b, _, hc⟩
  simp only [byteHexChars, List.mem_cons, List.not_mem_nil, or_false] at hc
  rcases hc with h1 | h2
  · rw [h1]; exact hexDigit_mem _
  · rw [h2]; exact hexDigit_mem _

theorem length_hexdigest_data (s : String) : (sha1_hexdigest s).data.length = 40 := by
  show ((digestBytes (sha1 (pyEncode s))).flatMap byteHexChars).length = 40
  rw [length_flatMap_byteHexChars, length_digestBytes]

theorem first8_length (s : String) : (first8_sha1_hex s).length = 8 := by
  show ((sha1_hexdigest s).data.take 8).length = 8
  rw [List.length_take, length_hexdigest_data]
  rfl

theorem first8_chars {s : String} {c : Char}
    (h : c ∈ (first8_sha1_hex s).data) : c ∈ hexChars16 := by
  have h' : c ∈ (sha1_hexdigest s).data := List.take_subset _ _ h
  exact mem_flatMap_byteHexChars h'

theorem first8_hex (s : String) : isHexPayload (first8_sha1_hex s) = true := by
  rw [isHexPayload, List.all_eq_true]
  intro c hc
  exact (by decide : ∀ x ∈ hexChars16, isHexChar x = true) c (first8_chars hc)

theorem first8_ascii (s : String) : isAsciiStr (first8_sha1_hex s) = true := by
  rw [isAsciiStr, List.all_eq_true]
  intro c hc
  exact decide_eq_true
    ((by decide : ∀ x ∈ hexChars16, x.toNat < 128) c (first8_chars hc))

theorem bytesOfChars_length_of_ascii (l : List Char) (h : ∀ c ∈ l, c.toNat < 128) :
    (bytesOfChars l).length = l.length := by
  induction l with
  | nil => rfl
  | cons c cs ih =>
      have hc : c.toNat < 128 := h c (by simp)
      have ihh := ih (fun x hx => h x (by simp [hx]))
      simp only [bytesOfChars, List.flatMap_cons] at ihh ⊢
      simp [charUtf8, hc, ihh]

theorem utf8Len_eq_length_of_ascii (s : String) (h : isAsciiStr s = true) :
    utf8Len s = s.length := by
  rw [isAsciiStr, List.all_eq_true] at h
  show (bytesOfChars s.data).length = s.length
  rw [bytesOfChars_length_of_ascii s.data (fun c hc => of_decide_eq_true (h c hc))]
  rfl

theorem utf8Len_append (a b : String) : utf8Len (a ++ b) = utf8Len a + utf8Len b := by
  rcases a with ⟨la⟩
  rcases b with ⟨lb⟩
  show (bytesOfChars (la ++ lb)).length = (bytesOfChars la).length + (bytesOfChars lb).length
  simp [bytesOfChars, List.flatMap_append]

/-! ## Claim theorems: identifier shortener and token resolution -/

/-- Claim C6: `safe_callback_data` computes `budget = 64 - len(pfx) - 1`,
returns `pfx ++ "_" ++ identifier` verbatim when the identifier fits the
budget, and otherwise `pfx` plus the first 8 hex characters of the SHA-1
digest of the identifier; determinism is inherent in the functional model. -/
theorem C6_encode_budget (pfx data : String) :
    ((data.length : Int) ≤ 64 - (pfx.length : Int) - 1 →
      safe_callback_data pfx data = pfx ++ "_" ++ data)
    ∧ ((data.length : Int) > 64 - (pfx.length : Int) - 1 →
      safe_callback_data pfx data = pfx ++ "_" ++ str_take (sha1_hexdigest data) 8) := by
  constructor
  · intro h
    rw [safe_callback_data, if_pos h]
  · intro h
    rw [safe_callback_data, if_neg (not_le.mpr h)]
    rfl

/-- Witness for C6 at `pfx = "product"`, `identifier = "short-handle"`. -/
theorem C6_witness :
    safe_callback_data ("product") ("short-handle") = "product" ++ "_" ++ "short-handle" :=
  (C6_encode_budget ("product") ("short-handle")).1 (by decide)

/-- Counterexample to claim C7 as stated: for a 60-character caller prefix
and the 4-character identifier `abcd`, the produced token is 69 bytes long,
exceeding the 64-byte limit (the hash branch fires and appends 9 bytes to
the prefix). -/
theorem C7_counterexample :
    utf8Len (safe_callback_data pfx60 ("abcd")) = 69 ∧
    ¬ utf8Len (safe_callback_data pfx60 ("abcd")) ≤ 64 := by decide

/-- Claim C7 amended: for every ASCII prefix of at most 55 characters and
every ASCII identifier, the full token produced by `safe_callback_data` is
at most 64 bytes long. -/
theorem C7_token_length (pfx data : String) (hpa : isAsciiStr pfx = true)
    (hpl : pfx.length ≤ 55) (hda : isAsciiStr data = true) :
    utf8Len (safe_callback_data pfx data) ≤ 64 := by
  rw [safe_callback_data]
  by_cases h : (data.length : Int) ≤ 64 - (pfx.length : Int) - 1
  · rw [if_pos h]
    rw [utf8Len_append, utf8Len_append,
      utf8Len_eq_length_of_ascii pfx hpa, utf8Len_eq_length_of_ascii data hda]
    have h1 : utf8Len ("_") = 1 := rfl
    omega
  · rw [if_neg h]
    rw [utf8Len_append, utf8Len_append, utf8Len_eq_length_of_ascii pfx hpa,
      utf8Len_eq_length_of_ascii _ (first8_ascii data), first8_length]
    have h1 : utf8Len ("_") = 1 := rfl
    omega

/-- Witness for C7 amended at `pfx = "product"` and the 200-character
identifier `x200`. -/
theorem C7_witness : utf8Len (safe_callback_data ("product") x200) ≤ 64 :=
  C7_token_length ("product") x200 (by decide) (by decide) (by decide)

/-- Counterexample to claim C8 as stated: the payload `orchidzz` has length 8
but is not a hex digest, so by the claim it should be resolved by exact
identifier lookup and find the product with handle `orchidzz`; the code
instead digest-scans on length alone and finds nothing. -/
theorem C8_counterexample :
    isHexPayload ("orchidzz") = false ∧ pOrch.handle = "orchidzz" ∧
    product_detail_lookup ("orchidzz") [pOrch] = none := by decide

/-- Claim C8 amended: a payload of length exactly 8 (regardless of content)
is resolved by a first-match digest scan; any other payload by exact
identifier lookup; when no candidate matches the result is `none` (a
not-found reply, not an error). -/
theorem C8_resolution (payload : String) (cands : List Product) :
    (payload.length = 8 →
      product_detail_lookup payload cands =
        cands.find? (fun p => first8_sha1_hex p.handle == payload))
    ∧ (payload.length ≠ 8 →
      product_detail_lookup payload cands =
        cands.find? (fun p => p.handle == payload))
    ∧ ((∀ p ∈ cands, first8_sha1_hex p.handle ≠ payload ∧ p.handle ≠ payload) →
      product_detail_lookup payload cands = none) := by
  refine ⟨fun h => by rw [product_detail_lookup, if_pos h],
    fun h => by rw [product_detail_lookup, if_neg h], fun h => ?_⟩
  rw [product_detail_lookup]
  by_cases hl : payload.length = 8
  · rw [if_pos hl, List.find?_eq_none]
    intro p hp
    simpa using (h p hp).1
  · rw [if_neg hl, List.find?_eq_none]
    intro p hp
    simpa using (h p hp).2

/-- Witness for C8 amended: the 8-character payload `78355dff` (the digest
prefix of `flowerzz`) is resolved by the digest scan. -/
theorem C8_witness :
    product_detail_lookup ("78355dff") [pFlow] =
      [pFlow].find? (fun p => first8_sha1_hex p.handle == "78355dff") :=
  (C8_resolution ("78355dff") [pFlow]).1 (by decide)

/-- Claim C9: encoding round-trips through resolution, both on the verbatim
path (`short-handle`) and on the hash path (a 200-character identifier whose
token payload is exactly 8 hex characters). -/
theorem C9_roundtrip :
    safe_callback_data ("product") ("short-handle") = "product" ++ "_" ++ "short-handle"
    ∧ product_detail_lookup ("short-handle") [pRose, pShort] = some pShort
    ∧ (∀ X : String, X.length = 200 →
        safe_callback_data ("product") X = "product" ++ "_" ++ first8_sha1_hex X
        ∧ (first8_sha1_hex X).length = 8
        ∧ isHexPayload (first8_sha1_hex X) = true)
    ∧ product_detail_lookup (first8_sha1_hex x200) [pRose, pLong] = some pLong := by
  refine ⟨by decide, by decide, fun X hX => ⟨?_, first8_length X, first8_hex X⟩, by decide⟩
  rw [safe_callback_data, if_neg (by rw [hX]; decide)]

/-- Witness for C9 at the concrete 200-character identifier `x200`. -/
theorem C9_witness :
    safe_callback_data ("product") x200 = "product" ++ "_" ++ first8_sha1_hex x200
    ∧ (first8_sha1_hex x200).length = 8
    ∧ isHexPayload (first8_sha1_hex x200) = true :=
  C9_roundtrip.2.2.1 x200 (by decide)

/-- Claim C10: resolution dispatches on payload length alone — every
8-character payload goes to the digest scan, hex or not, and never to exact
lookup; consequently the product `pFlow`, whose 8-character identifier
`flowerzz` is embedded verbatim by the encoder and is not the digest prefix
of any candidate, is not found by resolution. -/
theorem C10_length_dispatch :
    (∀ (payload : String) (cands : List Product), payload.length = 8 →
      product_detail_lookup payload cands =
        cands.find? (fun p => first8_sha1_hex p.handle == payload))
    ∧ safe_callback_data ("product") ("flowerzz") = "product" ++ "_" ++ "flowerzz"
    ∧ pFlow.handle = "flowerzz"
    ∧ first8_sha1_hex pFlow.handle ≠ "flowerzz"
    ∧ product_detail_lookup ("flowerzz") [pFlow] = none := by
  refine ⟨fun payload cands h => by rw [product_detail_lookup, if_pos h],
    by decide, by decide, by decide, by decide⟩

/-- Witness for C10 at the payload `flowerzz`. -/
theorem C10_witness :
    product_detail_lookup ("flowerzz") [pFlow] =
      [pFlow].find? (fun p => first8_sha1_hex p.handle == "flowerzz") :=
  C10_length_dispatch.1 ("flowerzz") [pFlow] (by decide)

/-! ## Claim theorems: catalog cache -/

/-- Counterexample to claim C1 as stated: with a stale nonempty snapshot
`[pRose]` (fetched at 0, queried at 601) and a failing fetch
(`get_all_products none = []`), the cache returns the empty list and not the
previous snapshot — the claim demanded the previous snapshot. -/
theorem C1_counterexample :
    (cache_products (get_all_products none) 601 (some ([pRose], 0))).products = []
    ∧ (cache_products (get_all_products none) 601 (some ([pRose], 0))).products ≠ [pRose] := by
  decide

/-- Claim C1 amended: on a fetch failure past the TTL the cache replaces the
stale snapshot with the empty result of the failed fetch and returns an
empty sequence (the previous snapshot is discarded, not returned, and no
failure is raised); when no prior snapshot exists it likewise returns an
empty sequence without failure. -/
theorem C1_fetch_failure (prev : List Product) (t0 now : Int) :
    (now - t0 > 600 →
      cache_products (get_all_products none) now (some (prev, t0)) =
        ⟨[], ([], now), true⟩)
    ∧ cache_products (get_all_products none) now none = ⟨[], ([], now), true⟩ := by
  constructor
  · intro h
    show cache_products [] now (some (prev, t0)) = _
    rw [cache_products]
    by_cases hp : prev = []
    · rw [if_pos hp]
    · rw [if_neg hp, if_pos h]
  · rfl

/-- Witness for C1 amended at a stale nonempty snapshot. -/
theorem C1_witness :
    cache_products (get_all_products none) 601 (some ([pRose2], 0)) =
      ⟨[], ([], 601), true⟩ :=
  (C1_fetch_failure [pRose2] 0 601).1 (by decide)

/-- Counterexample to claim C2 as stated: a `get` at exactly `t0 + 600`
(so `t - t0 >= 600`) does not refetch, because the code tests
`time.time() - cache_time > 600` strictly; and a `get` at `t0 + 1` over an
empty snapshot does refetch, because an empty cached list is falsy. -/
theorem C2_counterexample :
    (cache_products [pRose2] 600 (some ([pRose], 0))).fetched = false
    ∧ (cache_products [pRose2] 1 (some ([], 0))).fetched = true := by decide

/-- Claim C2 amended: for a session holding a nonempty snapshot fetched at
`t0`, a `get` at `now` with `now - t0 <= 600` returns the cached snapshot
unchanged with no refetch, and a `get` with `now - t0 > 600` performs
exactly one refetch that fully replaces the entry. -/
theorem C2_ttl (ps f : List Product) (t0 now : Int) (hne : ps ≠ []) :
    (now - t0 ≤ 600 → cache_products f now (some (ps, t0)) = ⟨ps, (ps, t0), false⟩)
    ∧ (now - t0 > 600 → cache_products f now (some (ps, t0)) = ⟨f, (f, now), true⟩) := by
  constructor
  · intro h
    rw [cache_products, if_neg hne, if_neg (by omega)]
  · intro h
    rw [cache_products, if_neg hne, if_pos h]

/-- Witness for C2 amended at `t0 + 599` (no refetch) and `t0 + 601`
(exactly one refetch). -/
theorem C2_witness :
    cache_products [pRose2] 599 (some ([pRose], 0)) = ⟨[pRose], ([pRose], 0), false⟩
    ∧ cache_products [pRose2] 601 (some ([pRose], 0)) = ⟨[pRose2], ([pRose2], 601), true⟩ :=
  ⟨(C2_ttl [pRose] [pRose2] 0 599 (by decide)).1 (by decide),
   (C2_ttl [pRose] [pRose2] 0 601 (by decide)).2 (by decide)⟩

/-! ## Claim theorems: price filtering -/

theorem price_pred_eq_under50 (p : Product) :
    price_filter_pred ("under50") p = claim_price_pred_amended ("under50") p := by
  rcases p with ⟨h, t, pr, tg⟩
  rcases pr with _ | v
  · rfl
  · rcases v with q | _ | _ | _
    · show (PyFloat.le (.fin 0) (.fin q) && PyFloat.le (.fin q) (.fin 50)) = _
      show _ = (decide (0 ≤ q) && decide ((0:ℚ) ≤ q) &&
        (match (some (50:ℚ)) with | some hi => decide (q ≤ hi) | none => true))
      by_cases h0 : (0:ℚ) ≤ q <;> by_cases h50 : q ≤ 50 <;>
        simp [PyFloat.le, h0, h50]
    · rfl
    · rfl
    · rfl

theorem price_pred_eq_50150 (p : Product) :
    price_filter_pred ("50-150") p = claim_price_pred_amended ("50-150") p := by
  rcases p with ⟨h, t, pr, tg⟩
  rcases pr with _ | v
  · rfl
  · rcases v with q | _ | _ | _
    · show (PyFloat.le (.fin 50) (.fin q) && PyFloat.le (.fin q) (.fin 150)) = _
      show _ = (decide (0 ≤ q) && decide ((50:ℚ) ≤ q) &&
        (match (some (150:ℚ)) with | some hi => decide (q ≤ hi) | none => true))
      by_cases h1 : (50:ℚ) ≤ q
      · have h0 : (0:ℚ) ≤ q := by linarith
        by_cases h2 : q ≤ 150 <;> simp [PyFloat.le, h0, h1, h2]
      · simp [PyFloat.le, h1]
    · rfl
    · rfl
    · rfl

theorem price_pred_eq_151250 (p : Product) :
    price_filter_pred ("151-250") p = claim_price_pred_amended ("151-250") p := by
  rcases p with ⟨h, t, pr, tg⟩
  rcases pr with _ | v
  · rfl
  · rcases v with q | _ | _ | _
    · show (PyFloat.le (.fin 151) (.fin q) && PyFloat.le (.fin q) (.fin 250)) = _
      show _ = (decide (0 ≤ q) && decide ((151:ℚ) ≤ q) &&
        (match (some (250:ℚ)) with | some hi => decide (q ≤ hi) | none => true))
      by_cases h1 : (151:ℚ) ≤ q
      · have h0 : (0:ℚ) ≤ q := by linarith
        by_cases h2 : q ≤ 250 <;> simp [PyFloat.le, h0, h1, h2]
      · simp [PyFloat.le, h1]
    · rfl
    · rfl
    · rfl

theorem price_pred_eq_over250 (p : Product) :
    price_filter_pred ("over250") p = claim_price_pred_amended ("over250") p := by
  rcases p with ⟨h, t, pr, tg⟩
  rcases pr with _ | v
  · rfl
  · rcases v with q | _ | _ | _
    · show (PyFloat.le (.fin 251) (.fin q) && PyFloat.le (.fin q) .inf) = _
      show _ = (decide (0 ≤ q) && decide ((251:ℚ) ≤ q) && true)
      by_cases h1 : (251:ℚ) ≤ q
      · have h0 : (0:ℚ) ≤ q := by linarith
        simp [PyFloat.le, h0, h1]
      · simp [PyFloat.le, h1]
    · rfl
    · rfl
    · rfl

theorem filter_price_eq_of_pred (b : String) (hb : ¬ b = "")
    (hpred : ∀ p, price_filter_pred b p = claim_price_pred_amended b p)
    (products : List Product) :
    filter_products_by_price products b = products.filter (claim_price_pred_amended b) := by
  rw [filter_products_by_price]
  by_cases hp : products = []
  · subst hp
    simp
  · rw [if_neg (by simp [hp, hb])]
    rw [show price_filter_pred b = claim_price_pred_amended b from funext hpred]

/-- Counterexample to claim C3 as stated: a product whose price field parses
to `+inf` (Python `float` accepts the string `inf`) is kept by the code in
the `over250` bucket, although its price is not a finite number, so the
filter does not keep exactly the products the claim describes. -/
theorem C3_counterexample :
    pInf.price = some PyFloat.inf
    ∧ filter_products_by_price [pInf] ("over250") = [pInf]
    ∧ claim_price_pred ("over250") pInf = false
    ∧ filter_products_by_price [pInf] ("over250") ≠
        [pInf].filter (claim_price_pred ("over250")) := by decide

/-- Claim C3 amended: each bucket keeps exactly the products whose price
parses to a non-negative number within the bucket's inclusive interval,
where the unbounded `over250` interval also admits a price parsing to
`+inf`; unparsable prices are silently excluded; for `under50` a product
priced 49.99 is included, one priced exactly 50 is included, and one priced
50.01 is excluded. -/
theorem C3_price_buckets : ∀ products : List Product,
    (filter_products_by_price products ("under50") =
      products.filter (claim_price_pred_amended ("under50")))
    ∧ (filter_products_by_price products ("50-150") =
      products.filter (claim_price_pred_amended ("50-150")))
    ∧ (filter_products_by_price products ("151-250") =
      products.filter (claim_price_pred_amended ("151-250")))
    ∧ (filter_products_by_price products ("over250") =
      products.filter (claim_price_pred_amended ("over250")))
    ∧ filter_products_by_price [pCheap, pFifty, pAbove] ("under50") = [pCheap, pFifty] := by
  intro products
  exact ⟨filter_price_eq_of_pred _ (by decide) price_pred_eq_under50 products,
    filter_price_eq_of_pred _ (by decide) price_pred_eq_50150 products,
    filter_price_eq_of_pred _ (by decide) price_pred_eq_151250 products,
    filter_price_eq_of_pred _ (by decide) price_pred_eq_over250 products,
    by decide⟩

/-! ## Claim theorems: tag filtering -/

/-- Claim C4: `filter_products_by_tag` includes a product iff some
normalized tag of the product (the raw tag field split on commas and trimmed
when it is a single delimited string, then each tag normalized) belongs to
the normalized surface forms of the filter key; in particular the key
`valentine` matches a product with raw tag string `Valentine's Day, roses`
and not one tagged only `birthday`. -/
theorem C4_tag_match :
    (∀ (products : List Product) (key : String) (p : Product),
      p ∈ filter_products_by_tag products key ↔
        p ∈ products ∧
          ∃ t ∈ (productTagList p.tags).map normalize_tag,
            t ∈ ((TAG_MAPPINGS.lookup key).getD [key]).map normalize_tag)
    ∧ filter_products_by_tag [pVal, pBday] ("valentine") = [pVal]
    ∧ pVal.tags = .str ("Valentine" ++ apoStr ++ "s Day, roses")
    ∧ pBday ∉ filter_products_by_tag [pVal, pBday] ("valentine") := by
  refine ⟨?_, by decide, by decide, by decide⟩
  intro products key p
  by_cases hp : products = []
  · subst hp
    simp [filter_products_by_tag]
  · rw [filter_products_by_tag, if_neg hp, List.mem_filter]
    constructor
    · rintro ⟨hmem, hpred⟩
      refine ⟨hmem, ?_⟩
      rw [tag_filter_pred, List.any_eq_true] at hpred
      rcases hpred with ⟨t, ht, hc⟩
      refine ⟨t, ?_, ht⟩
      simpa [List.contains, List.elem_iff] using hc
    · rintro ⟨hmem, t, h1, h2⟩
      refine ⟨hmem, ?_⟩
      rw [tag_filter_pred, List.any_eq_true]
      exact ⟨t, h2, by simpa [List.contains, List.elem_iff] using h1⟩

/-- Counterexample to claim C5 as stated: the key `peonies` is absent from
the synonym table, yet filtering a product tagged `peonies` with it yields
that product, not the empty list — the absent key falls back to the literal
key. -/
theorem C5_counterexample :
    TAG_MAPPINGS.lookup ("peonies") = none
    ∧ filter_products_by_tag [pPeony] ("peonies") = [pPeony]
    ∧ filter_products_by_tag [pPeony] ("peonies") ≠ [] := by decide

/-- Claim C5 amended: an empty input list yields the empty list; a filter
key absent from the synonym table falls back to the literal key itself, so
the output is the sublist of products whose normalized tags contain the
normalized key (empty only when no product carries a matching tag); neither
case is an error. -/
theorem C5_absent_key :
    (∀ key : String, filter_products_by_tag [] key = [])
    ∧ (∀ (key : String) (products : List Product), TAG_MAPPINGS.lookup key = none →
      filter_products_by_tag products key =
        products.filter (fun p =>
          ((productTagList p.tags).map normalize_tag).contains (normalize_tag key))) := by
  constructor
  · intro key
    rfl
  · intro key products hk
    rw [filter_products_by_tag]
    by_cases hp : products = []
    · subst hp
      simp
    · rw [if_neg hp, hk]
      rw [show tag_filter_pred ((Option.getD none [key]).map normalize_tag) =
          (fun p => ((productTagList p.tags).map normalize_tag).contains (normalize_tag key))
        from funext (fun p => by
          simp only [tag_filter_pred, Option.getD_none, List.map_cons, List.map_nil,
            List.any_cons, List.any_nil, Bool.or_false])]

/-- Witness for C5 amended at the absent key `peonies`. -/
theorem C5_witness :
    filter_products_by_tag [pPeony] ("peonies") =
      [pPeony].filter (fun p =>
        ((productTagList p.tags).map normalize_tag).contains (normalize_tag ("peonies"))) :=
  C5_absent_key.2 ("peonies") [pPeony] (by decide)

